import Mathlib

/-!
Verification of `ip_watcher_bot.py`, a Discord bot that polls the host's
public IP address on a fixed interval, persists the last seen address in
`last_ip.txt`, and posts a message to a configured channel when the
address changes.

The embedding models the per-tick coroutine `ip_monitor` as a pure
function from the tick's external outcomes (HTTP response, file-system
behaviour of the save, channel resolution, delivery outcome) and the
current content of the state file to a `TickResult` recording the final
file content, the messages delivered, the log entries emitted, the
ordered save/send actions, and the exception (if any) escaping the
coroutine.
-/

namespace IpWatcherBot

/-- Python whitespace characters relevant to `str.strip()`. -/
def isSpaceChar (c : Char) : Bool :=
  c == ' ' || c == '\t' || c == '\n' || c == '\r' || c == '\x0b' || c == '\x0c'

/-- `str.strip()` on the underlying character list: drop whitespace from
both ends. -/
def pyStripL (l : List Char) : List Char :=
  ((l.dropWhile isSpaceChar).reverse.dropWhile isSpaceChar).reverse

/-- Python's `s.strip()`. -/
def pyStrip (s : String) : String :=
  ⟨pyStripL s.data⟩

/-- ASCII digit test, as used by `int()` on a decimal literal. -/
def isAsciiDigit (c : Char) : Bool :=
  '0' ≤ c && c ≤ '9'

/-- Numeric value of an ASCII digit. -/
def digitVal (c : Char) : Nat :=
  c.toNat - '0'.toNat

/-- Continuation of Python `int()` digit parsing: after at least one
digit, further digits may follow, and a single underscore may stand
only between two digits.  `afterDigit` records whether the previous
character was a digit (an underscore must be both preceded and followed
by a digit, and the run must end in a digit). -/
def digitsRest (acc : Nat) (afterDigit : Bool) : List Char → Option Nat
  | [] => if afterDigit then some acc else none
  | c :: cs =>
      if isAsciiDigit c then digitsRest (acc * 10 + digitVal c) true cs
      else if c == '_' && afterDigit then digitsRest acc false cs
      else none

/-- Python `int()` digit-run parsing: at least one digit, underscores
only between digits. -/
def pyIntOfDigits : List Char → Option Nat
  | [] => none
  | c :: cs => if isAsciiDigit c then digitsRest (digitVal c) true cs else none

/-- Python `int(s)` for a decimal string: surrounding whitespace is
ignored, an optional sign precedes the digits; `none` models the
`ValueError` raised on anything else. -/
def pyIntParse (s : String) : Option Int :=
  match (pyStrip s).data with
  | '+' :: rest => (pyIntOfDigits rest).map Int.ofNat
  | '-' :: rest => (pyIntOfDigits rest).map (fun n => -(Int.ofNat n))
  | rest => (pyIntOfDigits rest).map Int.ofNat

/-- Errors that can abort startup while the configuration block runs:
`runtimeError` models the explicit `raise RuntimeError(msg)` statements,
`valueError` models the `ValueError` raised by `int()` on a bad string. -/
inductive StartupError where
  | runtimeError (msg : String)
  | valueError (s : String)
  deriving DecidableEq, Repr

/-- The configuration block of the module (lines 24-35): read
`DISCORD_TOKEN`, `NOTIFY_CHANNEL_ID` and `CHECK_INTERVAL` from the
environment (`none` = unset).  A falsy (unset or empty) token or channel
id raises a descriptive `RuntimeError`; otherwise the channel id and the
interval (defaulting to `"300"` when unset) go through `int()`, whose
failure raises an uncaught `ValueError`. -/
def loadConfig (discordToken notifyChannelId checkInterval : Option String) :
    Except StartupError (String × Int × Int) :=
  match discordToken with
  | none => .error (.runtimeError "DISCORD_TOKEN not set in environment or .env file")
  | some tok =>
    if tok = "" then
      .error (.runtimeError "DISCORD_TOKEN not set in environment or .env file")
    else
      match notifyChannelId with
      | none => .error (.runtimeError "NOTIFY_CHANNEL_ID not set")
      | some s =>
        if s = "" then .error (.runtimeError "NOTIFY_CHANNEL_ID not set")
        else
          match pyIntParse s with
          | none => .error (.valueError s)
          | some cid =>
            let ivStr := checkInterval.getD "300"
            match pyIntParse ivStr with
            | none => .error (.valueError ivStr)
            | some iv => .ok (tok, cid, iv)

/-- Log levels used by the module. -/
inductive LogLevel where
  | debug | info | warning | error
  deriving DecidableEq, Repr

/-- One log record. -/
structure LogEntry where
  level : LogLevel
  msg : String
  deriving DecidableEq, Repr

/-- `fetch_public_ip`: on a successful HTTP response (`some body`) the
body is stripped and returned; any exception (modelled by `none`) is
caught inside the helper, logged at warning level, and turned into
`None`. -/
def fetch_public_ip (resp : Option String) : Option String × List LogEntry :=
  match resp with
  | some body => (some (pyStrip body), [])
  | none => (none, [⟨.warning, "Failed to fetch public IP"⟩])

/-- `load_last_ip`: the state file's content, if the file exists, is read
and stripped; an empty result (Python `or None`) and a missing file both
give `None`. -/
def load_last_ip (file : Option String) : Option String :=
  match file with
  | some s => if pyStrip s = "" then none else some (pyStrip s)
  | none => none

/-- `save_last_ip`: `open(STATE_FILE, "w")` followed by `f.write(ip)`
replaces the file content with exactly `ip`. -/
def save_last_ip (ip : String) : Option String :=
  some ip

/-- The file contents a concurrent reader can observe while
`save_last_ip` runs: `open(STATE_FILE, "w")` first truncates the file to
empty, then the write makes the new value visible. -/
def save_last_ip_trace (ip : String) : List (Option String) :=
  [some "", some ip]

/-- The spec's atomicity requirement on a save, stated over the states a
reader can observe during the save: every observable state is either the
pre-save state or the completed new value. -/
def atomicForReader (old : Option String) (ip : String)
    (trace : List (Option String)) : Prop :=
  ∀ s ∈ trace, s = old ∨ s = save_last_ip ip

/-- The startup-framed message of the first run. -/
def startupMsg (current : String) : String :=
  "🟢 Bot started – current public IP is **" ++ current ++ "**."

/-- The change-framed message naming the old and the new address. -/
def changeMsg (last current : String) : String :=
  "⚠️ Public IP **changed** from `" ++ last ++ "` to **" ++ current ++ "**."

/-- How the file system treats this tick's `save_last_ip` call: the write
succeeds; `open` itself fails (file untouched); or the write fails after
`open` already truncated the file. -/
inductive SaveOutcome where
  | ok | failOpen | failWrite
  deriving DecidableEq, Repr

/-- Exceptions that can escape `ip_monitor`: an `OSError` from the file
system during `save_last_ip`, or an HTTP error from `channel.send`. -/
inductive PyError where
  | osError | httpError
  deriving DecidableEq, Repr

/-- External outcomes of one tick: the HTTP response body (`none` = the
request raised), the file system's behaviour on a save, whether
`bot.get_channel` finds the channel, and whether `channel.send`
succeeds. -/
structure TickEnv where
  fetchResp : Option String
  saveOut : SaveOutcome
  channelFound : Bool
  sendOk : Bool
  deriving DecidableEq, Repr

/-- The state-changing actions a tick performs, in order. -/
inductive Evt where
  | save (ok : Bool)
  | send (ok : Bool)
  deriving DecidableEq, Repr

/-- Observable result of one execution of `ip_monitor`. -/
structure TickResult where
  file : Option String
  sent : List String
  logs : List LogEntry
  events : List Evt
  exn : Option PyError
  deriving DecidableEq, Repr

/-- One execution of the `ip_monitor` coroutine body, from a given state
file content.  Mirrors lines 91-114 of the source: fetch (failure caught
inside the helper, tick returns keeping the old value); load; if the
loaded value differs from the current one, save (an `OSError` here is
not caught and escapes the coroutine), then resolve the channel and send
(an exception from `send` likewise escapes); otherwise only a debug log
is emitted. -/
def ip_monitor (env : TickEnv) (file : Option String) : TickResult :=
  match fetch_public_ip env.fetchResp with
  | (none, fetchLogs) => ⟨file, [], fetchLogs, [], none⟩
  | (some current, fetchLogs) =>
    let last := load_last_ip file
    if last ≠ some current then
      match env.saveOut with
      | .failOpen => ⟨file, [], fetchLogs, [.save false], some .osError⟩
      | .failWrite => ⟨some "", [], fetchLogs, [.save false], some .osError⟩
      | .ok =>
        let file' := save_last_ip current
        if env.channelFound then
          let msg := match last with
            | none => startupMsg current
            | some l => changeMsg l current
          if env.sendOk then
            ⟨file', [msg], fetchLogs ++ [⟨.info, msg⟩], [.save true, .send true], none⟩
          else
            ⟨file', [], fetchLogs, [.save true, .send false], some .httpError⟩
        else
          ⟨file', [], fetchLogs ++ [⟨.error, "Could not find channel"⟩], [.save true], none⟩
    else
      ⟨file, [], fetchLogs ++ [⟨.debug, "IP unchanged."⟩], [], none⟩

/-- The scheduler running the tick once per interval: thread the state
file through a list of tick environments, collecting the delivered
messages. -/
def runTicks : List TickEnv → Option String → Option String × List String
  | [], file => (file, [])
  | e :: es, file =>
    let r := ip_monitor e file
    let rest := runTicks es r.file
    (rest.fst, r.sent ++ rest.snd)

/-- Addresses written by the `save_last_ip` calls of this tick that
completed successfully. -/
def tickSave (env : TickEnv) (file : Option String) : List String :=
  match env.fetchResp with
  | none => []
  | some body =>
    let current := pyStrip body
    if load_last_ip file ≠ some current then
      match env.saveOut with
      | .ok => [current]
      | _ => []
    else []

/-- All successfully saved addresses over a run, in order. -/
def successfulSaves : List TickEnv → Option String → List String
  | [], _ => []
  | e :: es, file => tickSave e file ++ successfulSaves es (ip_monitor e file).file

/-- The last element of `l`, as file content, or the initial file content
when no save happened. -/
def lastOr (file₀ : Option String) (l : List String) : Option String :=
  match l.getLast? with
  | some v => some v
  | none => file₀

/-- Prefix test on character lists. -/
def listPre : List Char → List Char → Bool
  | [], _ => true
  | _ :: _, [] => false
  | a :: as, b :: bs => a == b && listPre as bs

/-- Substring test on character lists. -/
def listSub (n : List Char) : List Char → Bool
  | [] => n.isEmpty
  | b :: bs => listPre n (b :: bs) || listSub n bs

/-- `needle` occurs as a contiguous substring of `hay`. -/
def strContains (hay needle : String) : Bool :=
  listSub needle.data hay.data

/-- When the tick completes without an exception escaping: the fetch
already failed (and was caught), or no change was detected, or the save
succeeded and the send either did not happen (unresolved channel) or
succeeded. -/
def tickCompletesNormally (e : TickEnv) (file : Option String) : Prop :=
  e.fetchResp = none ∨
  (∃ body, e.fetchResp = some body ∧ load_last_ip file = some (pyStrip body)) ∨
  (e.saveOut = SaveOutcome.ok ∧ (e.channelFound = true → e.sendOk = true))

/-! ### Helper lemmas about `dropWhile` and `pyStrip` -/

/-- The head surviving a `dropWhile` fails the predicate. -/
theorem head?_dropWhile_not (p : Char → Bool) (l : List Char) (a : Char)
    (h : (l.dropWhile p).head? = some a) : p a = false := by
  induction l with
  | nil => simp [List.dropWhile] at h
  | cons b bs ih =>
    rw [List.dropWhile_cons] at h
    cases hb : p b with
    | true => rw [hb] at h; simp at h; exact ih h
    | false =>
      rw [hb] at h
      simp at h
      rw [← h]
      exact hb

/-- A nonempty `dropWhile` keeps the last element of the list. -/
theorem getLast?_dropWhile (p : Char → Bool) (l : List Char) (a : Char)
    (h : (l.dropWhile p).getLast? = some a) : l.getLast? = some a := by
  induction l with
  | nil => simp [List.dropWhile] at h
  | cons b bs ih =>
    rw [List.dropWhile_cons] at h
    cases hb : p b with
    | false => rw [hb] at h; simpa using h
    | true =>
      rw [hb] at h
      simp at h
      have hbs := ih h
      cases bs with
      | nil => simp at hbs
      | cons c cs => rw [List.getLast?_cons_cons]; exact hbs

/-- A list whose head fails the predicate is untouched by `dropWhile`. -/
theorem dropWhile_eq_self_of_head (p : Char → Bool) (l : List Char)
    (h : ∀ a, l.head? = some a → p a = false) : l.dropWhile p = l := by
  cases l with
  | nil => rfl
  | cons b bs =>
    rw [List.dropWhile_cons, h b rfl]
    simp

/-- `dropWhile` is idempotent. -/
theorem dropWhile_dropWhile (p : Char → Bool) (l : List Char) :
    (l.dropWhile p).dropWhile p = l.dropWhile p :=
  dropWhile_eq_self_of_head p _ (fun a h => head?_dropWhile_not p l a h)

/-- A stripped list starts with a non-whitespace character, if any. -/
theorem pyStripL_head (l : List Char) (a : Char)
    (h : (pyStripL l).head? = some a) : isSpaceChar a = false := by
  unfold pyStripL at h
  rw [List.head?_reverse] at h
  have h2 := getLast?_dropWhile isSpaceChar _ a h
  rw [List.getLast?_reverse] at h2
  exact head?_dropWhile_not isSpaceChar _ a h2

/-- Stripping is idempotent on character lists. -/
theorem pyStripL_idem (l : List Char) : pyStripL (pyStripL l) = pyStripL l := by
  have h1 : (pyStripL l).dropWhile isSpaceChar = pyStripL l :=
    dropWhile_eq_self_of_head _ _ (fun a ha => pyStripL_head l a ha)
  show (((pyStripL l).dropWhile isSpaceChar).reverse.dropWhile isSpaceChar).reverse
      = pyStripL l
  rw [h1]
  conv_lhs => rw [pyStripL, List.reverse_reverse, dropWhile_dropWhile]
  rfl

/-- Python `strip` is idempotent. -/
theorem pyStrip_idem (s : String) : pyStrip (pyStrip s) = pyStrip s :=
  congrArg String.mk (pyStripL_idem s.data)

/-! ### Helper lemmas about the substring test -/

/-- A list is a prefix of itself followed by anything. -/
theorem listPre_self_append (n b : List Char) : listPre n (n ++ b) = true := by
  induction n with
  | nil => rfl
  | cons a t ih => simp [listPre, ih]

/-- A list occurs in itself followed by anything. -/
theorem listSub_self_append (n b : List Char) : listSub n (n ++ b) = true := by
  cases n with
  | nil => cases b <;> simp [listSub, listPre]
  | cons a t =>
    have := listPre_self_append (a :: t) b
    simp [listSub]
    left
    exact this

/-- Occurrence is preserved by prepending. -/
theorem listSub_append_left (a n h : List Char) (hs : listSub n h = true) :
    listSub n (a ++ h) = true := by
  induction a with
  | nil => exact hs
  | cons x xs ih => simp [listSub, ih]

/-- The middle of a three-part concatenation occurs in the whole. -/
theorem strContains_append (pre mid suf : String) :
    strContains (pre ++ mid ++ suf) mid = true := by
  unfold strContains
  rw [String.data_append, String.data_append, List.append_assoc]
  exact listSub_append_left _ _ _ (listSub_self_append _ _)

/-- The startup message mentions the current address. -/
theorem startupMsg_contains (current : String) :
    strContains (startupMsg current) current = true :=
  strContains_append _ _ _

/-- The change message mentions the old address. -/
theorem changeMsg_contains_last (l c : String) :
    strContains (changeMsg l c) l = true := by
  unfold changeMsg strContains
  rw [String.data_append, String.data_append, String.data_append,
    String.data_append, List.append_assoc, List.append_assoc, List.append_assoc]
  exact listSub_append_left _ _ _ (listSub_self_append _ _)

/-- The change message mentions the new address. -/
theorem changeMsg_contains_current (l c : String) :
    strContains (changeMsg l c) c = true := by
  unfold changeMsg
  exact strContains_append _ _ _

/-! ### Helper lemmas about single ticks and runs -/

/-- A tick whose fetched address equals the loaded state takes the
NoAction branch. -/
theorem tick_noChange (e : TickEnv) (file : Option String) (body : String)
    (hf : e.fetchResp = some body)
    (hl : load_last_ip file = some (pyStrip body)) :
    ip_monitor e file =
      ⟨file, [], [⟨LogLevel.debug, "IP unchanged."⟩], [], none⟩ := by
  unfold ip_monitor fetch_public_ip
  rw [hf]
  simp [hl]

/-- A tick whose fetch fails returns at once, keeping the old state. -/
theorem tick_fetchFail (e : TickEnv) (file : Option String)
    (hf : e.fetchResp = none) :
    ip_monitor e file =
      ⟨file, [], [⟨LogLevel.warning, "Failed to fetch public IP"⟩], [], none⟩ := by
  unfold ip_monitor fetch_public_ip
  rw [hf]

/-- A tick where a change is detected and the save succeeds: the state
file gets the new address first; then the channel is resolved and the
message (startup- or change-framed by whether a previous address was
loaded) is sent. -/
theorem tick_change_saveOk (e : TickEnv) (file : Option String) (body : String)
    (hf : e.fetchResp = some body) (hs : e.saveOut = SaveOutcome.ok)
    (hl : load_last_ip file ≠ some (pyStrip body)) :
    ip_monitor e file =
      if e.channelFound then
        let msg := match load_last_ip file with
          | none => startupMsg (pyStrip body)
          | some l => changeMsg l (pyStrip body)
        if e.sendOk then
          ⟨save_last_ip (pyStrip body), [msg], [⟨LogLevel.info, msg⟩],
            [Evt.save true, Evt.send true], none⟩
        else
          ⟨save_last_ip (pyStrip body), [], [],
            [Evt.save true, Evt.send false], some PyError.httpError⟩
      else
        ⟨save_last_ip (pyStrip body), [],
          [⟨LogLevel.error, "Could not find channel"⟩], [Evt.save true], none⟩ := by
  unfold ip_monitor fetch_public_ip
  rw [hf, hs]
  simp [hl]

/-- A run over ticks that keep fetching the address already stored sends
nothing and leaves the state file unchanged. -/
theorem runTicks_noChange (envs : List TickEnv) (file : Option String)
    (cur : String) (hl : load_last_ip file = some cur)
    (he : ∀ e ∈ envs, ∃ b, e.fetchResp = some b ∧ pyStrip b = cur) :
    runTicks envs file = (file, []) := by
  induction envs with
  | nil => rfl
  | cons e es ih =>
    obtain ⟨b, hb, hsb⟩ := he e (List.mem_cons_self e es)
    have ht := tick_noChange e file b hb (by rw [hsb]; exact hl)
    unfold runTicks
    rw [ht]
    simp [ih (fun e' he' => he e' (List.mem_cons_of_mem _ he'))]

/-- Any tick whose save does not fail after truncation either performs
no successful save and keeps the state file, or performs exactly one
successful save whose value is the final state file content. -/
theorem tick_file_tickSave (e : TickEnv) (file : Option String)
    (hw : e.saveOut ≠ SaveOutcome.failWrite) :
    (tickSave e file = [] ∧ (ip_monitor e file).file = file) ∨
    (∃ c, tickSave e file = [c] ∧ (ip_monitor e file).file = some c) := by
  cases hf : e.fetchResp with
  | none => exact Or.inl ⟨by simp [tickSave, hf], by rw [tick_fetchFail e file hf]⟩
  | some body =>
    by_cases hl : load_last_ip file = some (pyStrip body)
    · left
      constructor
      · simp [tickSave, hf, hl]
      · rw [tick_noChange e file body hf hl]
    · cases hs : e.saveOut with
      | failWrite => exact absurd hs hw
      | failOpen =>
        left
        constructor
        · simp [tickSave, hf, hl, hs]
        · unfold ip_monitor fetch_public_ip
          rw [hf, hs]
          simp [hl]
      | ok =>
        right
        refine ⟨pyStrip body, by simp [tickSave, hf, hl, hs], ?_⟩
        rw [tick_change_saveOk e file body hf hs hl]
        cases hcf : e.channelFound <;> cases hsk : e.sendOk <;> simp [save_last_ip]

/-- `lastOr` peels a head element. -/
theorem lastOr_cons (f : Option String) (c : String) (l : List String) :
    lastOr f (c :: l) = lastOr (some c) l := by
  cases l with
  | nil => rfl
  | cons d ds =>
    have hne : (d :: ds).getLast?.isSome := by simp [List.getLast?_isSome]
    obtain ⟨v, hv⟩ := Option.isSome_iff_exists.mp hne
    unfold lastOr
    rw [List.getLast?_cons_cons, hv]

/-- Unfolding step for `runTicks`. -/
theorem runTicks_cons (e : TickEnv) (es : List TickEnv) (file : Option String) :
    runTicks (e :: es) file =
      ((runTicks es (ip_monitor e file).file).fst,
        (ip_monitor e file).sent ++ (runTicks es (ip_monitor e file).file).snd) :=
  rfl

/-- Unfolding step for `successfulSaves`. -/
theorem successfulSaves_cons (e : TickEnv) (es : List TickEnv)
    (file : Option String) :
    successfulSaves (e :: es) file =
      tickSave e file ++ successfulSaves es (ip_monitor e file).file :=
  rfl

/-- As long as no save fails after truncating, the final state file is
the last successfully saved address, or the initial content when no save
succeeded. -/
theorem runTicks_lastOr (envs : List TickEnv) :
    ∀ file : Option String, (∀ e ∈ envs, e.saveOut ≠ SaveOutcome.failWrite) →
      (runTicks envs file).fst = lastOr file (successfulSaves envs file) := by
  induction envs with
  | nil => intro file _; rfl
  | cons e es ih =>
    intro file hw
    rw [runTicks_cons, successfulSaves_cons]
    rcases tick_file_tickSave e file (hw e (List.mem_cons_self e es)) with
      ⟨h1, h2⟩ | ⟨c, h1, h2⟩
    · rw [h1, h2, List.nil_append]
      exact ih file (fun e' he' => hw e' (List.mem_cons_of_mem _ he'))
    · rw [h1, h2, List.singleton_append, lastOr_cons]
      exact ih (some c) (fun e' he' => hw e' (List.mem_cons_of_mem _ he'))

/-- The final state file of a change tick with a successful save is the
new address, whatever the channel and send outcomes. -/
theorem tick_change_saveOk_file (e : TickEnv) (file : Option String)
    (body : String) (hf : e.fetchResp = some body)
    (hs : e.saveOut = SaveOutcome.ok)
    (hl : load_last_ip file ≠ some (pyStrip body)) :
    (ip_monitor e file).file = save_last_ip (pyStrip body) := by
  rw [tick_change_saveOk e file body hf hs hl]
  by_cases hcf : e.channelFound = true <;> by_cases hsk : e.sendOk = true <;>
    simp [hcf, hsk]

/-- Loading right after saving a stripped non-empty address returns that
address. -/
theorem load_save_strip (body : String) (hne : pyStrip body ≠ "") :
    load_last_ip (save_last_ip (pyStrip body)) = some (pyStrip body) := by
  show (if pyStrip (pyStrip body) = "" then none
    else some (pyStrip (pyStrip body))) = some (pyStrip body)
  rw [pyStrip_idem]
  simp [hne]

/-! ### Claim theorems -/

/-- C3 counterexample: `save_last_ip` is not atomic from a reader's
perspective.  With prior successfully saved state `"1.2.3.4"` and a save
of `"5.6.7.8"`, a concurrent `load` can observe the truncated empty file
that `open(STATE_FILE, "w")` leaves before the write, which is neither
the old nor the new value. -/
theorem C3_counterexample :
    ¬ atomicForReader (some "1.2.3.4") "5.6.7.8"
        (save_last_ip_trace "5.6.7.8") := by
  intro h
  have h0 := h (some "") (by simp [save_last_ip_trace])
  rcases h0 with h0 | h0 <;> simp [save_last_ip] at h0

/-- C3 (amended): `save_last_ip` overwrites the state file in place by
truncating and then writing, with no temp-file-and-rename step: during
the save a reader can observe the empty truncated file; every
observable intermediate state is either that empty file or the
completed new value, and once the save completes the file holds exactly
the new value. -/
theorem C3_amended (ip : String) :
    some "" ∈ save_last_ip_trace ip ∧
    (∀ s ∈ save_last_ip_trace ip, s = some "" ∨ s = save_last_ip ip) ∧
    (save_last_ip_trace ip).getLast? = some (save_last_ip ip) := by
  refine ⟨by simp [save_last_ip_trace], ?_, by simp [save_last_ip_trace, save_last_ip]⟩
  intro s hs
  simp only [save_last_ip_trace, List.mem_cons, List.mem_singleton,
    List.not_mem_nil, or_false] at hs
  rcases hs with h | h
  · exact Or.inl h
  · exact Or.inr (by rw [h]; rfl)

/-- C3 amended witness at `"5.6.7.8"`: the truncated empty file is an
observable intermediate state of the save. -/
theorem C3_amended_witness :
    some "" ∈ save_last_ip_trace "5.6.7.8" :=
  (C3_amended "5.6.7.8").1

/-- C6: for every pair (previous, current) with the current address
equal under string equality to the loaded previous one, the tick takes
the NoAction branch: the state file is untouched, nothing is sent, no
save or send action is performed, and no exception escapes. -/
theorem C6_noAction (e : TickEnv) (file : Option String) (body : String)
    (hf : e.fetchResp = some body)
    (hl : load_last_ip file = some (pyStrip body)) :
    (ip_monitor e file).file = file ∧ (ip_monitor e file).sent = [] ∧
    (ip_monitor e file).events = [] ∧ (ip_monitor e file).exn = none := by
  rw [tick_noChange e file body hf hl]
  exact ⟨rfl, rfl, rfl, rfl⟩

/-- C6 witness: with the state file holding `"1.2.3.4"` and the fetch
returning `"1.2.3.4"`, the tick changes nothing and sends nothing. -/
theorem C6_noAction_witness :
    (ip_monitor ⟨some "1.2.3.4", SaveOutcome.ok, true, true⟩
        (some "1.2.3.4")).file = some "1.2.3.4" ∧
    (ip_monitor ⟨some "1.2.3.4", SaveOutcome.ok, true, true⟩
        (some "1.2.3.4")).sent = [] ∧
    (ip_monitor ⟨some "1.2.3.4", SaveOutcome.ok, true, true⟩
        (some "1.2.3.4")).events = [] ∧
    (ip_monitor ⟨some "1.2.3.4", SaveOutcome.ok, true, true⟩
        (some "1.2.3.4")).exn = none :=
  C6_noAction ⟨some "1.2.3.4", SaveOutcome.ok, true, true⟩ (some "1.2.3.4")
    "1.2.3.4" rfl (by decide)

/-- C7: under a tick that detects a change and whose save, channel
resolution and send all succeed: when no previous address was loaded,
the single message sent is the startup-framed one and it mentions the
current address; when a previous address was loaded and differs, the
single message sent is the change-framed one and it mentions both the
old and the new address. -/
theorem C7_messages (e : TickEnv) (file : Option String) (body : String)
    (hf : e.fetchResp = some body) (hs : e.saveOut = SaveOutcome.ok)
    (hcf : e.channelFound = true) (hsk : e.sendOk = true) :
    (load_last_ip file = none →
      (ip_monitor e file).sent = [startupMsg (pyStrip body)] ∧
      strContains (startupMsg (pyStrip body)) (pyStrip body) = true) ∧
    (∀ l, load_last_ip file = some l → l ≠ pyStrip body →
      (ip_monitor e file).sent = [changeMsg l (pyStrip body)] ∧
      strContains (changeMsg l (pyStrip body)) l = true ∧
      strContains (changeMsg l (pyStrip body)) (pyStrip body) = true) := by
  constructor
  · intro hl
    have hne : load_last_ip file ≠ some (pyStrip body) := by simp [hl]
    rw [tick_change_saveOk e file body hf hs hne]
    simp [hcf, hsk, hl, startupMsg_contains]
  · intro l hl hne'
    have hne : load_last_ip file ≠ some (pyStrip body) := by
      rw [hl]
      intro hcontra
      exact hne' (Option.some.inj hcontra)
    rw [tick_change_saveOk e file body hf hs hne]
    simp [hcf, hsk, hl, changeMsg_contains_last, changeMsg_contains_current]

/-- C7 witness: a first run from an absent state file sends the startup
message mentioning `"5.6.7.8"`, and a change from `"1.2.3.4"` sends the
change message mentioning both addresses. -/
theorem C7_messages_witness :
    ((ip_monitor ⟨some "5.6.7.8", SaveOutcome.ok, true, true⟩ none).sent =
        [startupMsg (pyStrip "5.6.7.8")] ∧
      strContains (startupMsg (pyStrip "5.6.7.8")) (pyStrip "5.6.7.8") = true) ∧
    ((ip_monitor ⟨some "5.6.7.8", SaveOutcome.ok, true, true⟩
        (some "1.2.3.4")).sent = [changeMsg "1.2.3.4" (pyStrip "5.6.7.8")] ∧
      strContains (changeMsg "1.2.3.4" (pyStrip "5.6.7.8")) "1.2.3.4" = true ∧
      strContains (changeMsg "1.2.3.4" (pyStrip "5.6.7.8")) (pyStrip "5.6.7.8") =
        true) :=
  ⟨(C7_messages ⟨some "5.6.7.8", SaveOutcome.ok, true, true⟩ none "5.6.7.8"
      rfl rfl rfl rfl).1 (by decide),
    (C7_messages ⟨some "5.6.7.8", SaveOutcome.ok, true, true⟩ (some "1.2.3.4")
      "5.6.7.8" rfl rfl rfl rfl).2 "1.2.3.4" (by decide) (by decide)⟩

/-- C8 counterexample: the round-trip is not exact for every non-empty
text.  Saving `" 1.2.3.4 "` and loading returns the stripped
`"1.2.3.4"`, not the saved value; `load_last_ip` strips the file
content. -/
theorem C8_counterexample :
    load_last_ip (save_last_ip " 1.2.3.4 ") = some "1.2.3.4" ∧
    some "1.2.3.4" ≠ some " 1.2.3.4 " := by
  decide

/-- C8 (amended): the save-then-load round-trip returns exactly `v` for
any text `v` that is non-empty and free of leading and trailing
whitespace (in general, load returns the stripped value, and absent
when `v` is all whitespace). -/
theorem C8_roundTrip (v : String) (hv : pyStrip v = v) (hne : v ≠ "") :
    load_last_ip (save_last_ip v) = some v := by
  show (if pyStrip v = "" then none else some (pyStrip v)) = some v
  rw [hv]
  simp [hne]

/-- C8 amended witness at `"1.2.3.4"`. -/
theorem C8_roundTrip_witness :
    load_last_ip (save_last_ip "1.2.3.4") = some "1.2.3.4" :=
  C8_roundTrip "1.2.3.4" (by decide) (by decide)

/-- C1 counterexample: with state `"1.2.3.4"` and fetched address
`"5.6.7.8"`, when `save_last_ip` raises an `OSError` the exception
escapes `ip_monitor` and nothing is logged: the save failure is neither
caught nor logged, contradicting the claim that it is caught and logged
before skipping the notification. -/
theorem C1_counterexample :
    (ip_monitor ⟨some "5.6.7.8", SaveOutcome.failOpen, true, true⟩
        (some "1.2.3.4")).exn = some PyError.osError ∧
    (ip_monitor ⟨some "5.6.7.8", SaveOutcome.failOpen, true, true⟩
        (some "1.2.3.4")).logs = [] := by
  decide

/-- C1 (amended): when a change is detected, the save is the first
action of the tick and any send happens only after a successful save;
if the save fails, no notification is sent but the failure propagates
out of the tick uncaught and unlogged (rather than being caught and
logged); if instead the send fails, the save is not rolled back: the
state file keeps the new address. -/
theorem C1_saveFirst (e : TickEnv) (file : Option String) (body : String)
    (hf : e.fetchResp = some body)
    (hl : load_last_ip file ≠ some (pyStrip body)) :
    (∀ b, Evt.send b ∈ (ip_monitor e file).events →
      (ip_monitor e file).events = [Evt.save true, Evt.send b]) ∧
    (e.saveOut ≠ SaveOutcome.ok →
      (ip_monitor e file).sent = [] ∧
      (ip_monitor e file).exn = some PyError.osError ∧
      (ip_monitor e file).logs = []) ∧
    (e.saveOut = SaveOutcome.ok → e.channelFound = true → e.sendOk = false →
      (ip_monitor e file).file = save_last_ip (pyStrip body) ∧
      (ip_monitor e file).exn = some PyError.httpError) := by
  refine ⟨?_, ?_, ?_⟩
  · intro b hb
    cases hs : e.saveOut with
    | failOpen =>
      exfalso
      revert hb
      unfold ip_monitor fetch_public_ip
      rw [hf, hs]
      simp [hl]
    | failWrite =>
      exfalso
      revert hb
      unfold ip_monitor fetch_public_ip
      rw [hf, hs]
      simp [hl]
    | ok =>
      rw [tick_change_saveOk e file body hf hs hl] at hb ⊢
      by_cases hcf : e.channelFound = true
      · by_cases hsk : e.sendOk = true
        · simp [hcf, hsk] at hb ⊢
          simp [hb]
        · simp [hcf, hsk] at hb ⊢
          simp [hb]
      · simp [hcf] at hb
  · intro hs
    cases hso : e.saveOut with
    | ok => exact absurd hso hs
    | failOpen =>
      unfold ip_monitor fetch_public_ip
      rw [hf, hso]
      simp [hl]
    | failWrite =>
      unfold ip_monitor fetch_public_ip
      rw [hf, hso]
      simp [hl]
  · intro hs hcf hsk
    rw [tick_change_saveOk e file body hf hs hl]
    simp [hcf, hsk]

/-- C1 amended witness: a detected change whose send fails keeps the
saved new address and lets the HTTP error escape. -/
theorem C1_saveFirst_witness :
    (ip_monitor ⟨some "5.6.7.8", SaveOutcome.ok, true, false⟩
        (some "1.2.3.4")).file = save_last_ip (pyStrip "5.6.7.8") ∧
    (ip_monitor ⟨some "5.6.7.8", SaveOutcome.ok, true, false⟩
        (some "1.2.3.4")).exn = some PyError.httpError :=
  (C1_saveFirst ⟨some "5.6.7.8", SaveOutcome.ok, true, false⟩ (some "1.2.3.4")
      "5.6.7.8" rfl (by decide)).2.2 rfl rfl rfl

/-- C2 counterexample: a tick in which `channel.send` raises does not
complete normally; the exception escapes `ip_monitor` instead of being
caught and logged. -/
theorem C2_counterexample :
    (ip_monitor ⟨some "9.9.9.9", SaveOutcome.ok, true, false⟩
        (some "1.2.3.4")).exn = some PyError.httpError := by
  decide

/-- C2 (amended): the tick completes without propagating an exception
exactly when the fetch failed (that failure is caught and logged inside
the helper), or no change was detected, or the save succeeded and the
send either was skipped for an unresolved channel or succeeded; a save
or send failure propagates out of the per-tick procedure uncaught. -/
theorem C2_exceptions (e : TickEnv) (file : Option String) :
    ((ip_monitor e file).exn = none ↔ tickCompletesNormally e file) ∧
    (e.fetchResp = none →
      (ip_monitor e file).logs =
        [⟨LogLevel.warning, "Failed to fetch public IP"⟩]) := by
  constructor
  · obtain ⟨fr, so, cf, sk⟩ := e
    cases fr with
    | none =>
      rw [tick_fetchFail ⟨none, so, cf, sk⟩ file rfl]
      simp [tickCompletesNormally]
    | some body =>
      by_cases hl : load_last_ip file = some (pyStrip body)
      · rw [tick_noChange ⟨some body, so, cf, sk⟩ file body rfl hl]
        simp [tickCompletesNormally]
        exact Or.inl hl
      · cases so with
        | failOpen =>
          constructor
          · intro h
            exfalso
            revert h
            unfold ip_monitor fetch_public_ip
            simp [hl]
          · intro h
            exfalso
            rcases h with h | ⟨b, hb, hlb⟩ | ⟨h1, _⟩
            · exact Option.noConfusion h
            · have hbb : body = b := Option.some.inj hb
              rw [← hbb] at hlb
              exact hl hlb
            · exact SaveOutcome.noConfusion h1
        | failWrite =>
          constructor
          · intro h
            exfalso
            revert h
            unfold ip_monitor fetch_public_ip
            simp [hl]
          · intro h
            exfalso
            rcases h with h | ⟨b, hb, hlb⟩ | ⟨h1, _⟩
            · exact Option.noConfusion h
            · have hbb : body = b := Option.some.inj hb
              rw [← hbb] at hlb
              exact hl hlb
            · exact SaveOutcome.noConfusion h1
        | ok =>
          rw [tick_change_saveOk ⟨some body, SaveOutcome.ok, cf, sk⟩ file body
            rfl rfl hl]
          cases cf with
          | false =>
            simp [tickCompletesNormally]
          | true =>
            cases sk with
            | true => simp [tickCompletesNormally]
            | false =>
              simp [tickCompletesNormally]
              exact hl
  · intro hf
    rw [tick_fetchFail e file hf]

/-- C2 amended witness: a tick whose fetch fails completes normally. -/
theorem C2_exceptions_witness :
    (ip_monitor ⟨none, SaveOutcome.ok, true, true⟩ (some "1.2.3.4")).exn =
      none :=
  (C2_exceptions ⟨none, SaveOutcome.ok, true, true⟩ (some "1.2.3.4")).1.mpr
    (Or.inl rfl)

/-- C10: with a non-empty token and a non-empty `NOTIFY_CHANNEL_ID`
(the code treats an empty value as unset): if either configured value
fails `int()` conversion, startup aborts with the uncaught `ValueError`
of the offending string, not the descriptive missing-configuration
`RuntimeError`; and when `CHECK_INTERVAL` is absent the interval
defaults to 300 seconds. -/
theorem C10_config (tok s : String) (htok : tok ≠ "") (hs : s ≠ "") :
    (pyIntParse s = none →
      ∀ ci, loadConfig (some tok) (some s) ci =
        Except.error (StartupError.valueError s)) ∧
    (∀ t, pyIntParse t = none →
      loadConfig (some tok) (some s) (some t) =
        Except.error (StartupError.valueError s) ∨
      loadConfig (some tok) (some s) (some t) =
        Except.error (StartupError.valueError t)) ∧
    (∀ cid, pyIntParse s = some cid →
      loadConfig (some tok) (some s) none = Except.ok (tok, cid, 300)) := by
  refine ⟨?_, ?_, ?_⟩
  · intro hp ci
    unfold loadConfig
    simp [htok, hs, hp]
  · intro t hp
    cases hps : pyIntParse s with
    | none =>
      left
      unfold loadConfig
      simp [htok, hs, hps]
    | some cid =>
      right
      unfold loadConfig
      simp [htok, hs, hps, hp]
  · intro cid hp
    have h300 : pyIntParse "300" = some 300 := by decide
    unfold loadConfig
    simp [htok, hs, hp, h300]

/-- C10 witness: `NOTIFY_CHANNEL_ID="abc"` aborts with the `ValueError`
of `"abc"`, and a valid channel id with `CHECK_INTERVAL` unset yields
the default interval 300. -/
theorem C10_config_witness :
    loadConfig (some "tok") (some "abc") (some "300") =
      Except.error (StartupError.valueError "abc") ∧
    loadConfig (some "tok") (some "123") none = Except.ok ("tok", 123, 300) :=
  ⟨(C10_config "tok" "abc" (by decide) (by decide)).1 (by decide) (some "300"),
    (C10_config "tok" "123" (by decide) (by decide)).2.2 123 (by decide)⟩

/-- C4 counterexample: a save that fails after `open` already truncated
the file breaks the invariant.  Starting from no state, the first tick
successfully saves `"1.2.3.4"`; the second tick fetches `"5.6.7.8"` and
its save fails mid-write, leaving the state file empty — which is not
the most recently successfully fetched and saved address `"1.2.3.4"`. -/
theorem C4_counterexample :
    successfulSaves
        [⟨some "1.2.3.4", SaveOutcome.ok, true, true⟩,
          ⟨some "5.6.7.8", SaveOutcome.failWrite, true, true⟩] none =
      ["1.2.3.4"] ∧
    (runTicks
        [⟨some "1.2.3.4", SaveOutcome.ok, true, true⟩,
          ⟨some "5.6.7.8", SaveOutcome.failWrite, true, true⟩] none).fst =
      some "" ∧
    some "" ≠ lastOr none ["1.2.3.4"] := by
  decide

/-- C4 (amended): a tick whose fetch fails leaves the state file
untouched and sends no notification; and provided no save fails after
truncating the file (every save either completes or fails before the
write), the state file after any run equals the most recently
successfully fetched-and-saved address, or the initial content when no
save succeeded. -/
theorem C4_invariant (e : TickEnv) (file : Option String)
    (envs : List TickEnv) (file₀ : Option String)
    (hf : e.fetchResp = none)
    (hw : ∀ x ∈ envs, x.saveOut ≠ SaveOutcome.failWrite) :
    ((ip_monitor e file).file = file ∧ (ip_monitor e file).sent = []) ∧
    (runTicks envs file₀).fst = lastOr file₀ (successfulSaves envs file₀) := by
  refine ⟨?_, runTicks_lastOr envs file₀ hw⟩
  rw [tick_fetchFail e file hf]
  exact ⟨rfl, rfl⟩

/-- C4 amended witness: a failing fetch leaves state `"1.2.3.4"` alone,
and a one-tick run whose save succeeds ends at the saved address. -/
theorem C4_invariant_witness :
    ((ip_monitor ⟨none, SaveOutcome.ok, true, true⟩ (some "1.2.3.4")).file =
        some "1.2.3.4" ∧
      (ip_monitor ⟨none, SaveOutcome.ok, true, true⟩ (some "1.2.3.4")).sent =
        []) ∧
    (runTicks [⟨some "5.6.7.8", SaveOutcome.ok, true, true⟩] none).fst =
      lastOr none
        (successfulSaves [⟨some "5.6.7.8", SaveOutcome.ok, true, true⟩] none) :=
  C4_invariant ⟨none, SaveOutcome.ok, true, true⟩ (some "1.2.3.4")
    [⟨some "5.6.7.8", SaveOutcome.ok, true, true⟩] none rfl (by decide)

/-- C5 counterexample: two ticks with an unchanged external address do
not always produce exactly one notification.  When the stored state
already equals the fetched address, both ticks take the NoAction branch
and zero notifications are produced. -/
theorem C5_counterexample :
    (runTicks
        [⟨some "1.2.3.4", SaveOutcome.ok, true, true⟩,
          ⟨some "1.2.3.4", SaveOutcome.ok, true, true⟩]
        (some "1.2.3.4")).snd = [] ∧
    (runTicks
        [⟨some "1.2.3.4", SaveOutcome.ok, true, true⟩,
          ⟨some "1.2.3.4", SaveOutcome.ok, true, true⟩]
        (some "1.2.3.4")).snd.length ≠ 1 := by
  decide

/-- C5 (amended): over two consecutive ticks fetching the same address
with a non-empty stripped value, the first tick's save succeeding: the
second tick never sends anything; the first tick sends exactly one
message when it detects a change and the channel resolves and the send
succeeds; and when the stored state already equals the current address
the first tick sends nothing at all (zero notifications in total, not
one). -/
theorem C5_idempotent (file : Option String) (e1 e2 : TickEnv) (body : String)
    (h1 : e1.fetchResp = some body) (h2 : e2.fetchResp = some body)
    (hs : e1.saveOut = SaveOutcome.ok) (hne : pyStrip body ≠ "") :
    (ip_monitor e2 (ip_monitor e1 file).file).sent = [] ∧
    (load_last_ip file ≠ some (pyStrip body) → e1.channelFound = true →
      e1.sendOk = true → (ip_monitor e1 file).sent.length = 1) ∧
    (load_last_ip file = some (pyStrip body) →
      (ip_monitor e1 file).sent = []) := by
  refine ⟨?_, ?_, ?_⟩
  · by_cases hl : load_last_ip file = some (pyStrip body)
    · rw [tick_noChange e1 file body h1 hl]
      show (ip_monitor e2 file).sent = []
      rw [tick_noChange e2 file body h2 hl]
    · rw [tick_change_saveOk_file e1 file body h1 hs hl]
      rw [tick_noChange e2 (save_last_ip (pyStrip body)) body h2
        (load_save_strip body hne)]
  · intro hl hcf hsk
    rw [tick_change_saveOk e1 file body h1 hs hl]
    simp [hcf, hsk]
  · intro hl
    rw [tick_noChange e1 file body h1 hl]

/-- C5 amended witness: stored `"1.2.3.4"`, fetched `"5.6.7.8"` twice:
one message from the first tick, none from the second. -/
theorem C5_idempotent_witness :
    (ip_monitor ⟨some "5.6.7.8", SaveOutcome.ok, true, true⟩
        (ip_monitor ⟨some "5.6.7.8", SaveOutcome.ok, true, true⟩
          (some "1.2.3.4")).file).sent = [] ∧
    (ip_monitor ⟨some "5.6.7.8", SaveOutcome.ok, true, true⟩
        (some "1.2.3.4")).sent.length = 1 :=
  have h := C5_idempotent (some "1.2.3.4")
    ⟨some "5.6.7.8", SaveOutcome.ok, true, true⟩
    ⟨some "5.6.7.8", SaveOutcome.ok, true, true⟩ "5.6.7.8" rfl rfl rfl
    (by decide)
  ⟨h.1, h.2.1 (by decide) rfl rfl⟩

/-- C9: when the change tick cannot resolve the notification channel,
the new address has already been saved before resolution is attempted:
the tick keeps the saved address, sends nothing, logs the unresolved
channel without raising — and the change produces zero notifications
ever, because every later tick fetching the same (unchanged) address
finds the stored state equal to it and takes the NoAction branch, so
the notification is never retried. -/
theorem C9_noRetry (e : TickEnv) (file : Option String) (body : String)
    (envs : List TickEnv)
    (hf : e.fetchResp = some body) (hs : e.saveOut = SaveOutcome.ok)
    (hcf : e.channelFound = false)
    (hl : load_last_ip file ≠ some (pyStrip body)) (hne : pyStrip body ≠ "")
    (hrest : ∀ x ∈ envs, ∃ b, x.fetchResp = some b ∧ pyStrip b = pyStrip body) :
    (ip_monitor e file).file = save_last_ip (pyStrip body) ∧
    (ip_monitor e file).sent = [] ∧
    (ip_monitor e file).exn = none ∧
    (ip_monitor e file).logs =
      [⟨LogLevel.error, "Could not find channel"⟩] ∧
    runTicks envs (ip_monitor e file).file =
      (save_last_ip (pyStrip body), []) := by
  have hrec := tick_change_saveOk e file body hf hs hl
  have hcf' : e.channelFound ≠ true := by simp [hcf]
  refine ⟨tick_change_saveOk_file e file body hf hs hl, ?_, ?_, ?_, ?_⟩
  · rw [hrec]; simp [hcf']
  · rw [hrec]; simp [hcf']
  · rw [hrec]; simp [hcf']
  · rw [tick_change_saveOk_file e file body hf hs hl]
    exact runTicks_noChange envs (save_last_ip (pyStrip body)) (pyStrip body)
      (load_save_strip body hne) hrest

/-- C9 witness: a first-run change to `"7.7.7.7"` with an unresolvable
channel saves the address, sends nothing, and a later tick fetching the
same address sends nothing either. -/
theorem C9_noRetry_witness :
    (ip_monitor ⟨some " 7.7.7.7 ", SaveOutcome.ok, false, true⟩ none).file =
      save_last_ip (pyStrip " 7.7.7.7 ") ∧
    (ip_monitor ⟨some " 7.7.7.7 ", SaveOutcome.ok, false, true⟩ none).sent =
      [] ∧
    (ip_monitor ⟨some " 7.7.7.7 ", SaveOutcome.ok, false, true⟩ none).exn =
      none ∧
    (ip_monitor ⟨some " 7.7.7.7 ", SaveOutcome.ok, false, true⟩ none).logs =
      [⟨LogLevel.error, "Could not find channel"⟩] ∧
    runTicks [⟨some "7.7.7.7", SaveOutcome.ok, true, true⟩]
        (ip_monitor ⟨some " 7.7.7.7 ", SaveOutcome.ok, false, true⟩ none).file =
      (save_last_ip (pyStrip " 7.7.7.7 "), []) :=
  C9_noRetry ⟨some " 7.7.7.7 ", SaveOutcome.ok, false, true⟩ none " 7.7.7.7 "
    [⟨some "7.7.7.7", SaveOutcome.ok, true, true⟩] rfl rfl rfl (by decide)
    (by decide)
    (by
      intro x hx
      rw [List.mem_singleton] at hx
      subst hx
      exact ⟨"7.7.7.7", rfl, by decide⟩)

end IpWatcherBot
